import Mathlib

/-!
Verification of `src/tools/upgrade_fbx.cpp` (the whole repository is this one
62-line entry point).  The FBX SDK is external and opaque; it is modelled by an
abstract `Toolkit` oracle whose boolean fields answer each SDK call the program
makes, and whose `importScene`/`serialize`/`reimportOk` fields stand for the
opaque scene contents the SDK produces.  The program itself is embedded as the
pure function `run`, which returns the ordered trace of observable events
(console prints and SDK calls) together with the process exit code, following
`main` branch for branch.
-/

/-- Observable events of a run of `main`: console output and the SDK calls the
program issues, in program order.  Scene contents are abstracted as `Nat`.
Note the program has no call releasing the scene or the IO-settings object:
those are reclaimed only implicitly when `destroyManager` runs (SDK ownership),
so no constructor for releasing them exists. -/
inductive Event where
  | print (line : String)
  | createManager
  | createIOSettings
  | createImporter
  | initImporter (path : String)
  | createScene
  | importCall (scene : Nat)
  | destroyImporter
  | createExporter
  | initExporter (path : String)
  | exportCall (path : String) (scene : Nat)
  | destroyExporter
  | destroyManager
  deriving DecidableEq, Repr

/-- Abstract model of the external FBX SDK, which is closed-source: each field
answers one of the calls `main` makes.  `managerOk` is whether
`FbxManager::Create` returns non-null; `importerInitOk p` / `exporterInitOk p`
are the boolean results of `FbxImporter::Initialize` / `FbxExporter::Initialize`
on path `p`; `importerErr p` / `exporterErr p` are the strings
`GetStatus().GetErrorString()` returns after a failed initialization on `p`;
`importScene p` is the abstract scene content `Import` places into the scene
object for source `p`; `serialize s` is the file content `Export` writes for a
scene `s`; `reimportOk c` is whether the SDK can re-import a file whose content
is `c`. -/
structure Toolkit where
  managerOk : Bool
  importerInitOk : String → Bool
  importerErr : String → String
  exporterInitOk : String → Bool
  exporterErr : String → String
  importScene : String → Nat
  serialize : Nat → Nat
  reimportOk : Nat → Bool

/-- The usage line printed on wrong argument count (line 7 of the source),
with `argv0` standing for `argv[0]`. -/
def usageLine (argv0 : String) : String :=
  "Usage: " ++ argv0 ++ " <input.fbx> <output.fbx>"

/-- Shallow embedding of `main` from `src/tools/upgrade_fbx.cpp`.  `argv0` is
the program name and `args` the remaining arguments, so the source's
`argc != 3` test is `args.length + 1 ≠ 3`, i.e. `args` is not a two-element
list.  The result is the trace of events in program order paired with the
exit code. -/
def run (tk : Toolkit) (argv0 : String) (args : List String) : List Event × Nat :=
  match args with
  | [inputFile, outputFile] =>
    if tk.managerOk = false then
      ([Event.createManager,
        Event.print "Error: Unable to create FBX Manager!"], 1)
    else if tk.importerInitOk inputFile = false then
      ([Event.createManager, Event.createIOSettings, Event.createImporter,
        Event.initImporter inputFile,
        Event.print "Error: Unable to initialize FBX importer!",
        Event.print ("Error returned: " ++ tk.importerErr inputFile)], 1)
    else if tk.exporterInitOk outputFile = false then
      ([Event.createManager, Event.createIOSettings, Event.createImporter,
        Event.initImporter inputFile, Event.createScene,
        Event.importCall (tk.importScene inputFile), Event.destroyImporter,
        Event.createExporter, Event.initExporter outputFile,
        Event.print "Error: Unable to initialize FBX exporter!",
        Event.print ("Error returned: " ++ tk.exporterErr outputFile)], 1)
    else
      ([Event.createManager, Event.createIOSettings, Event.createImporter,
        Event.initImporter inputFile, Event.createScene,
        Event.importCall (tk.importScene inputFile), Event.destroyImporter,
        Event.createExporter, Event.initExporter outputFile,
        Event.exportCall outputFile (tk.importScene inputFile),
        Event.destroyExporter, Event.destroyManager,
        Event.print ("FBX file upgraded successfully: " ++ inputFile ++
          " -> " ++ outputFile)], 0)
  | _ => ([Event.print (usageLine argv0)], 1)

/-- Whether an event creates a toolkit object. -/
def isCreate (e : Event) : Bool :=
  match e with
  | Event.createManager => true
  | Event.createIOSettings => true
  | Event.createImporter => true
  | Event.createScene => true
  | Event.createExporter => true
  | _ => false

/-- Whether an event can create or modify a file (binding the exporter to a
destination path, or exporting through it). -/
def isWrite (e : Event) : Bool :=
  match e with
  | Event.initExporter _ => true
  | Event.exportCall _ _ => true
  | _ => false

/-- The filesystem paths a trace passes to SDK read or write operations
(importer initialization, exporter initialization, export). -/
def ioPaths (evts : List Event) : List String :=
  evts.filterMap (fun e =>
    match e with
    | Event.initImporter p => some p
    | Event.initExporter p => some p
    | Event.exportCall p _ => some p
    | _ => none)

/-- Content of the file the trace leaves at path `p` (the serialization of the
last scene exported to `p`), if any. -/
def writtenAt (tk : Toolkit) (evts : List Event) (p : String) : Option Nat :=
  evts.foldl (fun acc e =>
    match e with
    | Event.exportCall q s => if q = p then some (tk.serialize s) else acc
    | _ => acc) none

/-- A sample toolkit on which every SDK call succeeds. -/
def tkGood : Toolkit where
  managerOk := true
  importerInitOk := fun _ => true
  importerErr := fun _ => "File not found"
  exporterInitOk := fun _ => true
  exporterErr := fun _ => "Permission denied"
  importScene := fun _ => 7
  serialize := fun s => s + 1
  reimportOk := fun _ => true

/-- A sample toolkit whose importer initialization always fails. -/
def tkNoImp : Toolkit :=
  { tkGood with importerInitOk := fun _ => false }

/-- A sample toolkit whose exporter initialization always fails. -/
def tkNoExp : Toolkit :=
  { tkGood with exporterInitOk := fun _ => false }

/-- A sample toolkit whose manager creation fails. -/
def tkNoMgr : Toolkit :=
  { tkGood with managerOk := false }

/-- On any argument list that is not exactly two arguments, the run is the
single usage print with exit code 1. -/
theorem run_usage (tk : Toolkit) (argv0 : String) (args : List String)
    (h : args.length ≠ 2) :
    run tk argv0 args = ([Event.print (usageLine argv0)], 1) := by
  match args with
  | [] => rfl
  | [a] => rfl
  | [a, b] => exact absurd rfl h
  | a :: b :: c :: rest => rfl

/-- C1: the entry point returns exit code 0 exactly on the success path
(manager created, importer and exporter both initialize), and exit code 1 on
wrong argument count, on importer-initialization failure, and on
exporter-initialization failure. -/
theorem exit_codes (tk : Toolkit) (argv0 inF outF : String) :
    ((run tk argv0 [inF, outF]).2 = 0 ↔
      tk.managerOk = true ∧ tk.importerInitOk inF = true ∧
        tk.exporterInitOk outF = true)
    ∧ (∀ args : List String, args.length ≠ 2 → (run tk argv0 args).2 = 1)
    ∧ (tk.managerOk = true → tk.importerInitOk inF = false →
        (run tk argv0 [inF, outF]).2 = 1)
    ∧ (tk.managerOk = true → tk.importerInitOk inF = true →
        tk.exporterInitOk outF = false → (run tk argv0 [inF, outF]).2 = 1) := by
  refine ⟨?_, ?_, ?_, ?_⟩
  · cases hm : tk.managerOk <;> cases hi : tk.importerInitOk inF <;>
      cases he : tk.exporterInitOk outF <;> simp [run, hm, hi, he]
  · intro args h
    rw [run_usage tk argv0 args h]
  · intro hm hi
    simp [run, hm, hi]
  · intro hm hi he
    simp [run, hm, hi, he]

/-- Witness for `exit_codes` at a concrete toolkit and arguments. -/
theorem exit_codes_witness :
    (run tkNoImp "upgrade_fbx" ["a.fbx", "b.fbx"]).2 = 1 :=
  (exit_codes tkNoImp "upgrade_fbx" "a.fbx" "b.fbx").2.2.1 rfl rfl

/-- C2: with any argument count other than two, the program prints the usage
line, exits non-zero, passes no path to any SDK read or write operation, and
creates no toolkit object. -/
theorem wrong_argc (tk : Toolkit) (argv0 : String) (args : List String)
    (h : args.length ≠ 2) :
    Event.print (usageLine argv0) ∈ (run tk argv0 args).1
    ∧ (run tk argv0 args).2 ≠ 0
    ∧ ioPaths (run tk argv0 args).1 = []
    ∧ ∀ e ∈ (run tk argv0 args).1, isCreate e = false := by
  rw [run_usage tk argv0 args h]
  simp [ioPaths, isCreate]

/-- Witness for `wrong_argc` on an empty argument list. -/
theorem wrong_argc_witness :
    Event.print (usageLine "upgrade_fbx") ∈ (run tkGood "upgrade_fbx" []).1
    ∧ (run tkGood "upgrade_fbx" []).2 ≠ 0
    ∧ ioPaths (run tkGood "upgrade_fbx" []).1 = []
    ∧ ∀ e ∈ (run tkGood "upgrade_fbx" []).1, isCreate e = false :=
  wrong_argc tkGood "upgrade_fbx" [] (by decide)

/-- C3: when importer initialization on the source path fails, the program
exits 1, prints an error line containing the SDK's diagnostic string, issues
no event that can create or modify a file (in particular performs no export),
and the whole run is independent of the destination argument, so the
destination path is never passed to any SDK call on this path. -/
theorem import_init_failure (tk : Toolkit) (argv0 inF outF : String)
    (hm : tk.managerOk = true) (hi : tk.importerInitOk inF = false) :
    (run tk argv0 [inF, outF]).2 = 1
    ∧ Event.print ("Error returned: " ++ tk.importerErr inF) ∈
        (run tk argv0 [inF, outF]).1
    ∧ (∀ e ∈ (run tk argv0 [inF, outF]).1, isWrite e = false)
    ∧ ∀ outF2 : String, run tk argv0 [inF, outF2] = run tk argv0 [inF, outF] := by
  refine ⟨?_, ?_, ?_, ?_⟩ <;> simp [run, hm, hi, isWrite]

/-- Witness for `import_init_failure` at a concrete toolkit. -/
theorem import_init_failure_witness :
    (run tkNoImp "upgrade_fbx" ["a.fbx", "b.fbx"]).2 = 1
    ∧ Event.print ("Error returned: " ++ tkNoImp.importerErr "a.fbx") ∈
        (run tkNoImp "upgrade_fbx" ["a.fbx", "b.fbx"]).1
    ∧ (∀ e ∈ (run tkNoImp "upgrade_fbx" ["a.fbx", "b.fbx"]).1, isWrite e = false)
    ∧ ∀ outF2 : String, run tkNoImp "upgrade_fbx" ["a.fbx", outF2] =
        run tkNoImp "upgrade_fbx" ["a.fbx", "b.fbx"] :=
  import_init_failure tkNoImp "upgrade_fbx" "a.fbx" "b.fbx" rfl rfl

/-- C4: when importer initialization succeeds but exporter initialization on
the destination fails, the program prints the SDK's diagnostic string and
exits 1; on this path the importer has already been released while the
manager is not released before exit (and since the program only ever releases
the scene through the manager's destruction, the imported scene is not
released either). -/
theorem export_init_failure (tk : Toolkit) (argv0 inF outF : String)
    (hm : tk.managerOk = true) (hi : tk.importerInitOk inF = true)
    (he : tk.exporterInitOk outF = false) :
    (run tk argv0 [inF, outF]).2 = 1
    ∧ Event.print ("Error returned: " ++ tk.exporterErr outF) ∈
        (run tk argv0 [inF, outF]).1
    ∧ Event.destroyImporter ∈ (run tk argv0 [inF, outF]).1
    ∧ Event.destroyManager ∉ (run tk argv0 [inF, outF]).1
    ∧ Event.importCall (tk.importScene inF) ∈ (run tk argv0 [inF, outF]).1 := by
  refine ⟨?_, ?_, ?_, ?_, ?_⟩ <;> simp [run, hm, hi, he]

/-- Witness for `export_init_failure` at a concrete toolkit. -/
theorem export_init_failure_witness :
    (run tkNoExp "upgrade_fbx" ["a.fbx", "b.fbx"]).2 = 1
    ∧ Event.print ("Error returned: " ++ tkNoExp.exporterErr "b.fbx") ∈
        (run tkNoExp "upgrade_fbx" ["a.fbx", "b.fbx"]).1
    ∧ Event.destroyImporter ∈ (run tkNoExp "upgrade_fbx" ["a.fbx", "b.fbx"]).1
    ∧ Event.destroyManager ∉ (run tkNoExp "upgrade_fbx" ["a.fbx", "b.fbx"]).1
    ∧ Event.importCall (tkNoExp.importScene "a.fbx") ∈
        (run tkNoExp "upgrade_fbx" ["a.fbx", "b.fbx"]).1 :=
  export_init_failure tkNoExp "upgrade_fbx" "a.fbx" "b.fbx" rfl rfl rfl

/-- C5: on every successful run, the scene passed to `Export` is exactly the
scene populated by `Import` — the import event and the export event of the
trace carry the same scene value, and every exported scene was imported. -/
theorem export_same_scene (tk : Toolkit) (argv0 inF outF : String)
    (hm : tk.managerOk = true) (hi : tk.importerInitOk inF = true)
    (he : tk.exporterInitOk outF = true) :
    Event.importCall (tk.importScene inF) ∈ (run tk argv0 [inF, outF]).1
    ∧ Event.exportCall outF (tk.importScene inF) ∈ (run tk argv0 [inF, outF]).1
    ∧ ∀ p s, Event.exportCall p s ∈ (run tk argv0 [inF, outF]).1 →
        Event.importCall s ∈ (run tk argv0 [inF, outF]).1 := by
  refine ⟨?_, ?_, ?_⟩
  · simp [run, hm, hi, he]
  · simp [run, hm, hi, he]
  · intro p s hmem
    simp only [run, hm, hi, he] at hmem ⊢
    simp at hmem
    simp [hmem.2]

/-- Witness for `export_same_scene` at a concrete toolkit. -/
theorem export_same_scene_witness :
    Event.importCall (tkGood.importScene "a.fbx") ∈
        (run tkGood "upgrade_fbx" ["a.fbx", "b.fbx"]).1
    ∧ Event.exportCall "b.fbx" (tkGood.importScene "a.fbx") ∈
        (run tkGood "upgrade_fbx" ["a.fbx", "b.fbx"]).1
    ∧ ∀ p s, Event.exportCall p s ∈ (run tkGood "upgrade_fbx" ["a.fbx", "b.fbx"]).1 →
        Event.importCall s ∈ (run tkGood "upgrade_fbx" ["a.fbx", "b.fbx"]).1 :=
  export_same_scene tkGood "upgrade_fbx" "a.fbx" "b.fbx" rfl rfl rfl

/-- C6 counterexample: the claim that every exit path except the
export-initialization-failure path releases each created toolkit resource is
false.  First run: importer initialization fails (this is not the
export-initialization-failure path — no `initExporter` event occurs), yet the
manager and the importer were created and neither is released.  Second run:
even on the export-initialization-failure path, besides scene and session the
created exporter is also left unreleased. -/
theorem release_all_cex :
    (Event.createImporter ∈ (run tkNoImp "upgrade_fbx" ["a.fbx", "b.fbx"]).1
      ∧ Event.destroyImporter ∉ (run tkNoImp "upgrade_fbx" ["a.fbx", "b.fbx"]).1
      ∧ Event.createManager ∈ (run tkNoImp "upgrade_fbx" ["a.fbx", "b.fbx"]).1
      ∧ Event.destroyManager ∉ (run tkNoImp "upgrade_fbx" ["a.fbx", "b.fbx"]).1
      ∧ Event.initExporter "b.fbx" ∉ (run tkNoImp "upgrade_fbx" ["a.fbx", "b.fbx"]).1)
    ∧ (Event.createExporter ∈ (run tkNoExp "upgrade_fbx" ["a.fbx", "b.fbx"]).1
      ∧ Event.destroyExporter ∉ (run tkNoExp "upgrade_fbx" ["a.fbx", "b.fbx"]).1) := by
  decide

/-- C6 amended: resource release per exit path.  On the
importer-initialization-failure path the manager, IO settings and importer are
created and none is released; on the exporter-initialization-failure path the
importer has been released but the manager (hence the scene) and the exporter
are not; on the success path the importer, exporter and manager are each
explicitly released (the scene and IO settings only implicitly through the
manager's destruction); on the manager-failure path nothing but the failed
manager creation happens. -/
theorem release_by_path (tk : Toolkit) (argv0 inF outF : String) :
    (tk.managerOk = true → tk.importerInitOk inF = false →
      Event.createManager ∈ (run tk argv0 [inF, outF]).1
      ∧ Event.createIOSettings ∈ (run tk argv0 [inF, outF]).1
      ∧ Event.createImporter ∈ (run tk argv0 [inF, outF]).1
      ∧ Event.destroyImporter ∉ (run tk argv0 [inF, outF]).1
      ∧ Event.destroyManager ∉ (run tk argv0 [inF, outF]).1)
    ∧ (tk.managerOk = true → tk.importerInitOk inF = true →
        tk.exporterInitOk outF = false →
      Event.destroyImporter ∈ (run tk argv0 [inF, outF]).1
      ∧ Event.createExporter ∈ (run tk argv0 [inF, outF]).1
      ∧ Event.destroyExporter ∉ (run tk argv0 [inF, outF]).1
      ∧ Event.destroyManager ∉ (run tk argv0 [inF, outF]).1)
    ∧ (tk.managerOk = true → tk.importerInitOk inF = true →
        tk.exporterInitOk outF = true →
      Event.destroyImporter ∈ (run tk argv0 [inF, outF]).1
      ∧ Event.destroyExporter ∈ (run tk argv0 [inF, outF]).1
      ∧ Event.destroyManager ∈ (run tk argv0 [inF, outF]).1)
    ∧ (tk.managerOk = false →
      (run tk argv0 [inF, outF]).1 =
        [Event.createManager, Event.print "Error: Unable to create FBX Manager!"]) := by
  refine ⟨?_, ?_, ?_, ?_⟩
  · intro hm hi
    refine ⟨?_, ?_, ?_, ?_, ?_⟩ <;> simp [run, hm, hi]
  · intro hm hi he
    refine ⟨?_, ?_, ?_, ?_⟩ <;> simp [run, hm, hi, he]
  · intro hm hi he
    refine ⟨?_, ?_, ?_⟩ <;> simp [run, hm, hi, he]
  · intro hm
    simp [run, hm]

/-- Witness for `release_by_path` at a concrete toolkit. -/
theorem release_by_path_witness :
    Event.destroyImporter ∈ (run tkGood "upgrade_fbx" ["a.fbx", "b.fbx"]).1
    ∧ Event.destroyExporter ∈ (run tkGood "upgrade_fbx" ["a.fbx", "b.fbx"]).1
    ∧ Event.destroyManager ∈ (run tkGood "upgrade_fbx" ["a.fbx", "b.fbx"]).1 :=
  (release_by_path tkGood "upgrade_fbx" "a.fbx" "b.fbx").2.2.1 rfl rfl rfl

/-- C7: the two argument path strings are passed through unmodified — every
importer initialization in the trace receives exactly `argv[1]`, every
exporter initialization receives exactly `argv[2]`, and on success the printed
success line contains both strings verbatim (each is a literal substring,
exhibited by an explicit decomposition). -/
theorem paths_verbatim (tk : Toolkit) (argv0 inF outF : String)
    (hm : tk.managerOk = true) (hi : tk.importerInitOk inF = true)
    (he : tk.exporterInitOk outF = true) :
    Event.initImporter inF ∈ (run tk argv0 [inF, outF]).1
    ∧ Event.initExporter outF ∈ (run tk argv0 [inF, outF]).1
    ∧ (∀ p, Event.initImporter p ∈ (run tk argv0 [inF, outF]).1 → p = inF)
    ∧ (∀ p, Event.initExporter p ∈ (run tk argv0 [inF, outF]).1 → p = outF)
    ∧ Event.print ("FBX file upgraded successfully: " ++ inF ++ " -> " ++ outF) ∈
        (run tk argv0 [inF, outF]).1
    ∧ (∃ pre post,
        "FBX file upgraded successfully: " ++ inF ++ " -> " ++ outF =
          pre ++ inF ++ post)
    ∧ (∃ pre post,
        "FBX file upgraded successfully: " ++ inF ++ " -> " ++ outF =
          pre ++ outF ++ post) := by
  refine ⟨?_, ?_, ?_, ?_, ?_, ?_, ?_⟩
  · simp [run, hm, hi, he]
  · simp [run, hm, hi, he]
  · intro p hp
    simp [run, hm, hi, he] at hp
    exact hp
  · intro p hp
    simp [run, hm, hi, he] at hp
    exact hp
  · simp [run, hm, hi, he]
  · exact ⟨"FBX file upgraded successfully: ", " -> " ++ outF, by
      simp [String.append_assoc]⟩
  · exact ⟨"FBX file upgraded successfully: " ++ inF ++ " -> ", "", by
      simp [String.append_assoc]⟩

/-- Witness for `paths_verbatim` at a concrete toolkit. -/
theorem paths_verbatim_witness :
    Event.initImporter "a.fbx" ∈ (run tkGood "upgrade_fbx" ["a.fbx", "b.fbx"]).1
    ∧ Event.print ("FBX file upgraded successfully: " ++ "a.fbx" ++ " -> " ++ "b.fbx") ∈
        (run tkGood "upgrade_fbx" ["a.fbx", "b.fbx"]).1 :=
  ⟨(paths_verbatim tkGood "upgrade_fbx" "a.fbx" "b.fbx" rfl rfl rfl).1,
   (paths_verbatim tkGood "upgrade_fbx" "a.fbx" "b.fbx" rfl rfl rfl).2.2.2.2.1⟩

/-- C8: for every run, every filesystem path the program passes to an SDK read
or write operation is one of the supplied argument strings. -/
theorem only_arg_paths (tk : Toolkit) (argv0 : String) (args : List String) :
    ∀ p ∈ ioPaths (run tk argv0 args).1, p ∈ args := by
  match args with
  | [inF, outF] =>
    cases hm : tk.managerOk <;> cases hi : tk.importerInitOk inF <;>
      cases he : tk.exporterInitOk outF <;>
      intro p hp <;> simp [run, hm, hi, he, ioPaths] at hp <;> simp_all
  | [] => intro p hp; simp [run, ioPaths] at hp
  | [a] => intro p hp; simp [run, ioPaths] at hp
  | a :: b :: c :: rest => intro p hp; simp [run, ioPaths] at hp

/-- Witness for `only_arg_paths` at a concrete run. -/
theorem only_arg_paths_witness : "a.fbx" ∈ ["a.fbx", "b.fbx"] :=
  only_arg_paths tkGood "upgrade_fbx" ["a.fbx", "b.fbx"] "a.fbx" (by decide)

/-- C9: for a source the SDK can read and a destination it can write (both
initializations succeed), the program exits 0 and leaves at the destination
path the serialization of the imported scene; given the opaque toolkit's
round-trip guarantee — that it can re-import any file its own exporter
serializes — that destination file re-imports without error. -/
theorem roundtrip_openable (tk : Toolkit) (argv0 inF outF : String)
    (hm : tk.managerOk = true) (hi : tk.importerInitOk inF = true)
    (he : tk.exporterInitOk outF = true)
    (hrt : ∀ s, tk.reimportOk (tk.serialize s) = true) :
    (run tk argv0 [inF, outF]).2 = 0
    ∧ writtenAt tk (run tk argv0 [inF, outF]).1 outF =
        some (tk.serialize (tk.importScene inF))
    ∧ ∀ c, writtenAt tk (run tk argv0 [inF, outF]).1 outF = some c →
        tk.reimportOk c = true := by
  refine ⟨?_, ?_, ?_⟩
  · simp [run, hm, hi, he]
  · simp [run, hm, hi, he, writtenAt]
  · intro c hc
    simp [run, hm, hi, he, writtenAt] at hc
    rw [← hc]
    exact hrt _

/-- Witness for `roundtrip_openable` at a concrete toolkit. -/
theorem roundtrip_openable_witness :
    (run tkGood "upgrade_fbx" ["a.fbx", "b.fbx"]).2 = 0
    ∧ writtenAt tkGood (run tkGood "upgrade_fbx" ["a.fbx", "b.fbx"]).1 "b.fbx" =
        some (tkGood.serialize (tkGood.importScene "a.fbx"))
    ∧ ∀ c, writtenAt tkGood (run tkGood "upgrade_fbx" ["a.fbx", "b.fbx"]).1 "b.fbx" =
        some c → tkGood.reimportOk c = true :=
  roundtrip_openable tkGood "upgrade_fbx" "a.fbx" "b.fbx" rfl rfl rfl (fun _ => rfl)

/-- C10: if manager creation returns null, the run is exactly the failed
creation followed by the hardcoded error print, with exit code 1 — so no file
path is passed to the SDK and no other toolkit object is created. -/
theorem manager_failure (tk : Toolkit) (argv0 inF outF : String)
    (hm : tk.managerOk = false) :
    run tk argv0 [inF, outF] =
      ([Event.createManager, Event.print "Error: Unable to create FBX Manager!"], 1)
    ∧ ioPaths (run tk argv0 [inF, outF]).1 = []
    ∧ ∀ e ∈ (run tk argv0 [inF, outF]).1, isCreate e = true →
        e = Event.createManager := by
  refine ⟨?_, ?_, ?_⟩
  · simp [run, hm]
  · simp [run, hm, ioPaths]
  · intro e he hce
    simp [run, hm] at he
    rcases he with h | h
    · exact h
    · rw [h] at hce; simp [isCreate] at hce

/-- Witness for `manager_failure` at a concrete toolkit. -/
theorem manager_failure_witness :
    run tkNoMgr "upgrade_fbx" ["a.fbx", "b.fbx"] =
      ([Event.createManager, Event.print "Error: Unable to create FBX Manager!"], 1) :=
  (manager_failure tkNoMgr "upgrade_fbx" "a.fbx" "b.fbx" rfl).1
